import Mathlib

/-
Shallow embedding of the arcade-game core of this repository
(src/src/components/BreakoutGame.tsx and the two variant files
src/unnamed/part_001 and src/unnamed/part_002).

Number model: the JavaScript numbers are modelled as exact rationals (ℚ).
The source computes square roots (Math.sqrt) in two places: the speed of
the ball and the distance between ball and paddle centres.  Those values
are irrational in general, so they are passed to the embedded functions
as extra parameters constrained by the defining equations of the square
root (nonnegative, and squaring to the radicand); predicates of the form
sqrt e <= c are embedded as e <= c ^ 2, which is equivalent whenever
c >= 0 (and every radius and bound in the program is nonnegative).
-/

/-- Playfield width, the constant GAME_WIDTH = 800. -/
def GAME_WIDTH : ℚ := 800

/-- Playfield height, the constant GAME_HEIGHT = 600. -/
def GAME_HEIGHT : ℚ := 600

/-- Vertical step of a formation drop, the constant INVADER_DROP_SPEED = 16. -/
def INVADER_DROP_SPEED : ℚ := 16

/-- Initial formation step speed, set by startGame and initializeInvaders
(invaderSpeedRef.current = 15). -/
def startInvaderSpeed : ℚ := 15

/-- Ball state: position, velocity and radius (interface Ball). -/
structure Ball where
  x : ℚ
  y : ℚ
  dx : ℚ
  dy : ℚ
  radius : ℚ
  deriving DecidableEq

/-- Paddle state (interface Paddle). -/
structure Paddle where
  x : ℚ
  y : ℚ
  width : ℚ
  height : ℚ
  deriving DecidableEq

/-- Enemy laser (interface Laser, invader-fleet variant). -/
structure Laser where
  x : ℚ
  y : ℚ
  width : ℚ
  height : ℚ
  speed : ℚ
  deriving DecidableEq

/-- Size tier of an invader (the union type in interface Invader). -/
inductive InvSize where
  | large
  | medium
  | small
  deriving DecidableEq

/-- Invader state (interface Invader).  The optional fields spawning,
spawnRotation, spawnScale, targetX, targetY of the source are modelled as
always-present fields together with the flags spawning and hasTarget; the
colour tag is an index into INVADER_COLORS. -/
structure Invader where
  x : ℚ
  y : ℚ
  width : ℚ
  height : ℚ
  color : ℕ
  destroyed : Bool
  row : ℕ
  col : ℕ
  size : InvSize
  spawning : Bool
  spawnRotation : ℚ
  spawnScale : ℚ
  hasTarget : Bool
  targetX : ℚ
  targetY : ℚ
  deriving DecidableEq

/-- Brick of the brick-breaker variant (interface Brick in src/unnamed/part_002). -/
structure Brick where
  x : ℚ
  y : ℚ
  width : ℚ
  height : ℚ
  color : ℕ
  destroyed : Bool
  deriving DecidableEq

/-- The gameState union type: playing, paused, gameOver or won. -/
inductive GameState where
  | playing
  | paused
  | gameOver
  | won
  deriving DecidableEq

/-- The slice of game state read and written by the per-frame life and laser
logic of gameLoop: lives, gameState, the pending ballAttached flag, the
warp-in cosmetic flag, the ball and paddle refs, the laser list and the
invader list.  Score and the formation speed are modelled separately by the
pure functions below. -/
structure GState where
  gameState : GameState
  lives : ℤ
  ballAttached : Bool
  warpActive : Bool
  ball : Ball
  paddle : Paddle
  lasers : List Laser
  invaders : List Invader
  deriving DecidableEq

/-- Collision test of ball against the circular paddle
(checkBallPaddleCollision in BreakoutGame.tsx): the source compares
sqrt(distanceX^2 + distanceY^2) <= ball.radius + paddle.width / 2, embedded
here by squaring the bound. -/
def checkBallPaddleCollision (b : Ball) (p : Paddle) : Bool :=
  decide ((b.x - (p.x + p.width / 2)) ^ 2 + (b.y - (p.y + p.height / 2)) ^ 2
    ≤ (b.radius + p.width / 2) ^ 2)

/-- Reflection part of the circular-paddle bounce (gameLoop, the block
guarded by checkBallPaddleCollision): the velocity is reflected about the
normal (nx, ny) and the vertical component is then forced upward via
dy = -abs(dy).  The source normal is (distanceX / distance, distanceY / distance);
it is a parameter here. -/
def bounceReflect (dx dy nx ny : ℚ) : ℚ × ℚ :=
  (dx - 2 * (dx * nx + dy * ny) * nx, -(|dy - 2 * (dx * nx + dy * ny) * ny|))

/-- Speed clamp after a paddle bounce (the `if (speed > 8)` block): s stands
for the computed Math.sqrt(dx ** 2 + dy ** 2). -/
def clampSpeed (vx vy s : ℚ) : ℚ × ℚ :=
  if 8 < s then (vx / s * 8, vy / s * 8) else (vx, vy)

/-- Full velocity response of a circular-paddle collision: reflection,
forced-upward vertical component, then the speed clamp, where s stands for
the square root of the squared speed of the reflected velocity. -/
def paddleBounceVel (dx dy nx ny s : ℚ) : ℚ × ℚ :=
  clampSpeed (bounceReflect dx dy nx ny).1 (bounceReflect dx dy nx ny).2 s

/-- Test for a living, non-spawning invader (the filter
inv => !inv.destroyed && !inv.spawning used throughout gameLoop). -/
def isActive (i : Invader) : Bool :=
  !i.destroyed && !i.spawning

/-- Minimum of a list of rationals; gameLoop computes
Math.min(...activeInvaders.map(inv => inv.x)) only on nonempty lists, so the
value on [] is irrelevant. -/
def listMinQ : List ℚ → ℚ
  | [] => 0
  | [a] => a
  | a :: b :: t => min a (listMinQ (b :: t))

/-- Maximum of a list of rationals, companion of listMinQ. -/
def listMaxQ : List ℚ → ℚ
  | [] => 0
  | [a] => a
  | a :: b :: t => max a (listMaxQ (b :: t))

/-- Leftmost extent of a list of invaders
(Math.min(...activeInvaders.map(inv => inv.x))). -/
def leftMostOf (l : List Invader) : ℚ :=
  listMinQ (l.map (fun i => i.x))

/-- Rightmost extent of a list of invaders
(Math.max(...activeInvaders.map(inv => inv.x + inv.width))). -/
def rightMostOf (l : List Invader) : ℚ :=
  listMaxQ (l.map (fun i => i.x + i.width))

/-- Translation of one invader during a formation advance: the source
mutates only the active invaders (the forEach runs over activeInvaders,
whose elements are shared with the main array), so inactive invaders are
returned unchanged. -/
def moveInv (dx dy : ℚ) (i : Invader) : Invader :=
  if isActive i then { i with x := i.x + dx, y := i.y + dy } else i

/-- One formation advance of the invader fleet (the body of the
`if (newCount >= 180)` block of gameLoop in BreakoutGame.tsx): when some
active invader exists, the direction flips when the formation would cross
the 30-pixel boundary margin while moving toward it, each flip adds 5 to
the step speed and drops every active invader by INVADER_DROP_SPEED, and
every active invader is then translated by the (possibly new) direction
times the (possibly new) speed. -/
def advanceFormation (invs : List Invader) (dir : ℤ) (speed : ℚ) :
    List Invader × ℤ × ℚ :=
  if (invs.filter isActive).isEmpty then (invs, dir, speed)
  else if dir = 1 ∧ GAME_WIDTH - 30 ≤ rightMostOf (invs.filter isActive) + speed then
    (invs.map (moveInv (-1 * (speed + 5)) INVADER_DROP_SPEED), -1, speed + 5)
  else if dir = -1 ∧ leftMostOf (invs.filter isActive) - speed ≤ 30 then
    (invs.map (moveInv (1 * (speed + 5)) INVADER_DROP_SPEED), 1, speed + 5)
  else
    (invs.map (moveInv ((dir : ℚ) * speed) 0), dir, speed)

/-- One child invader of a split (the newInvaders.push calls in the
ball-invader collision handler of gameLoop): the child starts at the
parent's centre (offset by a quarter of the parent's extent), has half the
parent's width and height, carries the parent's row, a doubled-and-offset
column index, a caller-supplied colour and spawn rotation (random in the
source), spawn scale 0.1 and a stored target position. -/
def mkChild (inv : Invader) (sz : InvSize) (spacing : ℚ) (k : ℕ) (c : ℕ) (r : ℚ) : Invader :=
  { x := inv.x + inv.width / 2 - (inv.width / 2) / 2
    y := inv.y + inv.height / 2 - inv.height / 4
    width := inv.width / 2
    height := inv.height / 2
    color := c
    destroyed := false
    row := inv.row
    col := inv.col * 2 + k
    size := sz
    spawning := true
    spawnRotation := r
    spawnScale := 0.1
    hasTarget := true
    targetX := inv.x + (k : ℚ) * spacing
    targetY := inv.y }

/-- Children created when the ball destroys an invader (the splitting
branches of the ball-invader collision handler): a large invader yields two
medium children spaced by mediumWidth + INVADER_PADDING, a medium invader
yields two small children spaced by smallWidth + INVADER_PADDING / 2, and a
small invader yields none. -/
def splitChildren (inv : Invader) (c0 c1 : ℕ) (r0 r1 : ℚ) : List Invader :=
  match inv.size with
  | InvSize.large =>
      [mkChild inv InvSize.medium (inv.width / 2 + 4) 0 c0 r0,
       mkChild inv InvSize.medium (inv.width / 2 + 4) 1 c1 r1]
  | InvSize.medium =>
      [mkChild inv InvSize.small (inv.width / 2 + 2) 0 c0 r0,
       mkChild inv InvSize.small (inv.width / 2 + 2) 1 c1 r1]
  | InvSize.small => []

/-- Per-frame update of a spawning invader (the invaders.forEach block of
gameLoop): rotation advances by 0.15, scale grows by 0.05 up to 1, the
position eases a tenth of the way toward the stored target, and once the
position is within 2 of the target with scale at least 0.95, the spawning
state is cleared with scale set to exactly 1 and the position snapped to
the target. -/
def updateSpawning (i : Invader) : Invader :=
  if i.spawning = false then i
  else
    let i1 : Invader := { i with spawnRotation := i.spawnRotation + 0.15 }
    let i2 : Invader := if i1.spawnScale < 1 then { i1 with spawnScale := i1.spawnScale + 0.05 } else i1
    if i2.hasTarget then
      let dx := i2.targetX - i2.x
      let dy := i2.targetY - i2.y
      if |dx| < 2 ∧ |dy| < 2 ∧ (0.95 : ℚ) ≤ i2.spawnScale then
        { i2 with spawning := false, spawnRotation := 0, spawnScale := 1,
                  x := i2.targetX, y := i2.targetY, hasTarget := false }
      else
        { i2 with x := i2.x + dx * 0.1, y := i2.y + dy * 0.1 }
    else i2

/-- Collision test of ball against an invader (checkBallInvaderCollision):
an AABB overlap of the ball's bounding square with the invader, false for
already-destroyed invaders (spawning invaders are not excluded in the
source). -/
def checkBallInvaderCollision (b : Ball) (i : Invader) : Bool :=
  if i.destroyed then false
  else
    decide (i.x < b.x + b.radius) && decide (b.x - b.radius < i.x + i.width) &&
    decide (i.y < b.y + b.radius) && decide (b.y - b.radius < i.y + i.height)

/-- Resolution of the ball against the invader list (the
`for (const invader of invaders)` loop of gameLoop): the first invader that
overlaps the ball is resolved and the loop breaks.  A large or medium
invader is removed from the list and its two split children are appended at
the end (invaders.filter(inv => inv !== invader) followed by the spread of
newInvaders); a small invader stays in the list marked destroyed and adds 1
to the formation step speed.  Result: the new list, whether a hit occurred
(the source then negates ball.dy), the speed increment, and the score
increment (invader.row + 1) * 10. -/
def ballInvaderScan (b : Ball) (c0 c1 : ℕ) (r0 r1 : ℚ) :
    List Invader → List Invader × Bool × ℚ × ℤ
  | [] => ([], false, 0, 0)
  | i :: rest =>
    if checkBallInvaderCollision b i then
      match i.size with
      | InvSize.small =>
          ({ i with destroyed := true } :: rest, true, 1, ((i.row : ℤ) + 1) * 10)
      | InvSize.large =>
          (rest ++ splitChildren i c0 c1 r0 r1, true, 0, ((i.row : ℤ) + 1) * 10)
      | InvSize.medium =>
          (rest ++ splitChildren i c0 c1 r0 r1, true, 0, ((i.row : ℤ) + 1) * 10)
    else
      let r := ballInvaderScan b c0 c1 r0 r1 rest
      (i :: r.1, r.2)

/-- Collision test of ball against a brick in the brick-breaker variant
(checkBallBrickCollision in src/unnamed/part_002). -/
def checkBallBrickCollision (b : Ball) (br : Brick) : Bool :=
  if br.destroyed then false
  else
    decide (br.x < b.x + b.radius) && decide (b.x - b.radius < br.x + br.width) &&
    decide (br.y < b.y + b.radius) && decide (b.y - b.radius < br.y + br.height)

/-- Resolution of the ball against the brick list in the brick-breaker
variant (the `for (const brick of bricks)` loop of src/unnamed/part_002):
the first overlapping brick is marked destroyed, the score rises by 10, the
loop breaks, and no new entity is ever created. -/
def ballBrickScan (b : Ball) : List Brick → List Brick × Bool × ℤ
  | [] => ([], false, 0)
  | br :: rest =>
    if checkBallBrickCollision b br then
      ({ br with destroyed := true } :: rest, true, 10)
    else
      let r := ballBrickScan b rest
      (br :: r.1, r.2)

/-- Ball state used in the C9 counterexample: ball centre exactly on the
paddle centre of c9paddle. -/
def c9ball : Ball := { x := 400, y := 576, dx := 0, dy := 1, radius := 8 }

/-- Paddle state used in the C9 counterexample, centre (400, 576). -/
def c9paddle : Paddle := { x := 384, y := 560, width := 32, height := 32 }

/-- Ball state used in the C9 witness: centre distinct from the paddle centre. -/
def c9ballW : Ball := { x := 410, y := 570, dx := 1, dy := 1, radius := 8 }

/-- Large invader used as a concrete input for the formation witnesses: at
x = 700 with width 64 its right edge plus the initial step speed crosses
the right boundary margin. -/
def inv1 : Invader :=
  { x := 700, y := 100, width := 64, height := 48, color := 0, destroyed := false,
    row := 0, col := 3, size := InvSize.large, spawning := false, spawnRotation := 0,
    spawnScale := 1, hasTarget := false, targetX := 0, targetY := 0 }

/-- Small invader used as a concrete input for the ball-hit witnesses. -/
def invS : Invader :=
  { x := 100, y := 100, width := 32, height := 24, color := 2, destroyed := false,
    row := 2, col := 0, size := InvSize.small, spawning := false, spawnRotation := 0,
    spawnScale := 1, hasTarget := false, targetX := 0, targetY := 0 }

/-- Ball overlapping invS, used by the ball-hit witnesses. -/
def ballS : Ball := { x := 110, y := 110, dx := 1, dy := 1, radius := 8 }

/-- Collision test of a laser against the paddle (checkLaserPaddleCollision):
an AABB overlap of the laser rectangle with the paddle rectangle. -/
def checkLaserPaddleCollision (l : Laser) (p : Paddle) : Bool :=
  decide (p.x < l.x + l.width) && decide (l.x < p.x + p.width) &&
  decide (p.y < l.y + l.height) && decide (l.y < p.y + p.height)

/-- Collision test of an invader against the circular paddle
(checkInvaderPaddleCollision): false for destroyed or spawning invaders,
otherwise true when some corner of the invader lies within the paddle
radius; the source compares sqrt of the squared distance with the radius,
embedded here by squaring both sides. -/
def checkInvaderPaddleCollision (i : Invader) (p : Paddle) : Bool :=
  if i.destroyed || i.spawning then false
  else
    [(i.x, i.y), (i.x + i.width, i.y), (i.x, i.y + i.height), (i.x + i.width, i.y + i.height)].any
      (fun c =>
        decide ((c.1 - (p.x + p.width / 2)) ^ 2 + (c.2 - (p.y + p.height / 2)) ^ 2
          ≤ (p.width / 2) ^ 2))

/-- Re-attachment of the ball to the paddle after a life loss (the shared
else-branch of the three setLives callbacks): the ball is centred above the
circular paddle and given the fixed re-launch velocity (2.5, -2.5). -/
def resetBallOnPaddle (p : Paddle) (b : Ball) : Ball :=
  { b with
    x := p.x + p.width / 2
    y := p.y + p.height / 2 - p.width / 2 - b.radius
    dx := 2.5
    dy := -2.5 }

/-- Life-loss response of the laser-paddle hit (the setLives callback of the
laser-collision block of gameLoop): lives decrease by one; at zero or below
the state becomes gameOver; otherwise the ball is re-attached, the warp-in
cosmetic starts and the laser list is cleared. -/
def lifeLossLaser (s : GState) : GState :=
  if s.lives - 1 ≤ 0 then
    { s with lives := s.lives - 1, gameState := GameState.gameOver }
  else
    { s with lives := s.lives - 1, ballAttached := true, warpActive := true,
             ball := resetBallOnPaddle s.paddle s.ball, lasers := [] }

/-- Life-loss response of the invader-paddle collision (the setLives
callback of the invader-collision block, textually identical to the laser
one). -/
def lifeLossInvader (s : GState) : GState :=
  if s.lives - 1 ≤ 0 then
    { s with lives := s.lives - 1, gameState := GameState.gameOver }
  else
    { s with lives := s.lives - 1, ballAttached := true, warpActive := true,
             ball := resetBallOnPaddle s.paddle s.ball, lasers := [] }

/-- Life-loss response of the ball falling past the bottom edge (the
setLives callback of the `ball.y > GAME_HEIGHT` block): identical to the
other two except that it does not clear the laser list. -/
def lifeLossBallFall (s : GState) : GState :=
  if s.lives - 1 ≤ 0 then
    { s with lives := s.lives - 1, gameState := GameState.gameOver }
  else
    { s with lives := s.lives - 1, ballAttached := true, warpActive := true,
             ball := resetBallOnPaddle s.paddle s.ball }

/-- Search of the laser-paddle loop: the source iterates the laser array
from the last index downward and splices out the first hit found; this
scans the reversed list and returns the remaining reversed list on a hit. -/
def laserScanRev (ls : List Laser) (p : Paddle) : Option (List Laser) :=
  match ls with
  | [] => none
  | l :: rest =>
    if checkLaserPaddleCollision l p then some rest
    else (laserScanRev rest p).map (fun r => l :: r)

/-- Laser-paddle resolution of one frame (the
`for (let i = lasersRef.current.length - 1; ...)` loop of gameLoop): when a
laser hits the paddle it is removed and the laser life-loss response runs;
otherwise the state is unchanged. -/
def laserPaddleStep (s : GState) : GState :=
  match laserScanRev s.lasers.reverse s.paddle with
  | none => s
  | some restRev => lifeLossLaser { s with lasers := restRev.reverse }

/-- Invader-paddle and invader-at-bottom resolution of one frame (the
`for (const invader of activeInvaders)` loop of gameLoop): the first
invader colliding with the paddle triggers the invader life-loss response
and the loop breaks; otherwise the first invader whose lower edge reaches
GAME_HEIGHT forces the gameOver state regardless of remaining lives, and
the loop breaks. -/
def invaderPaddleScan : List Invader → GState → GState
  | [], s => s
  | i :: rest, s =>
    if checkInvaderPaddleCollision i s.paddle then lifeLossInvader s
    else if GAME_HEIGHT ≤ i.y + i.height then { s with gameState := GameState.gameOver }
    else invaderPaddleScan rest s

/-- Ball attachment and integration of one frame (the
`if (ballAttached)` block of gameLoop): attached0 is the ballAttached React
state captured at the top of the frame (the setBallAttached calls of the
same frame do not change it). -/
def ballMoveStep (attached0 : Bool) (s : GState) : GState :=
  if attached0 then
    { s with ball := { s.ball with
        x := s.paddle.x + s.paddle.width / 2
        y := s.paddle.y + s.paddle.height / 2 - s.paddle.width / 2 - s.ball.radius
        dx := 0
        dy := 0 } }
  else
    { s with ball := { s.ball with x := s.ball.x + s.ball.dx, y := s.ball.y + s.ball.dy } }

/-- Wall bounce of one frame: horizontal velocity inverted at either side
wall, then vertical velocity inverted at the top wall. -/
def wallBounceStep (s : GState) : GState :=
  let b1 := if s.ball.x - s.ball.radius ≤ 0 ∨ GAME_WIDTH ≤ s.ball.x + s.ball.radius
    then { s.ball with dx := -s.ball.dx } else s.ball
  let b2 := if b1.y - b1.radius ≤ 0 then { b1 with dy := -b1.dy } else b1
  { s with ball := b2 }

/-- Circular-paddle bounce of one frame (the
`if (!ballAttached && checkBallPaddleCollision(...))` block): d stands for
the Math.sqrt distance between ball and paddle centres and sp for the
Math.sqrt speed of the reflected velocity; both are only consumed when the
collision predicate holds. -/
def ballPaddleBounceStep (attached0 : Bool) (d sp : ℚ) (s : GState) : GState :=
  if attached0 = false ∧ checkBallPaddleCollision s.ball s.paddle = true then
    { s with ball := { s.ball with
        dx := (paddleBounceVel s.ball.dx s.ball.dy
          ((s.ball.x - (s.paddle.x + s.paddle.width / 2)) / d)
          ((s.ball.y - (s.paddle.y + s.paddle.height / 2)) / d) sp).1
        dy := (paddleBounceVel s.ball.dx s.ball.dy
          ((s.ball.x - (s.paddle.x + s.paddle.width / 2)) / d)
          ((s.ball.y - (s.paddle.y + s.paddle.height / 2)) / d) sp).2 } }
  else s

/-- Ball-invader resolution of one frame applied to the state: the invader
list is replaced by the scan result and the vertical velocity is inverted
on a hit (the formation speed increment of the scan is tracked by the pure
functions above). -/
def ballInvaderBlockStep (c0 c1 : ℕ) (r0 r1 : ℚ) (s : GState) : GState :=
  { s with
    invaders := (ballInvaderScan s.ball c0 c1 r0 r1 s.invaders).1
    ball := if (ballInvaderScan s.ball c0 c1 r0 r1 s.invaders).2.1
      then { s.ball with dy := -s.ball.dy } else s.ball }

/-- Ball-below-bottom check of one frame (the
`if (ball.y > GAME_HEIGHT && !ballAttached)` block): the ball-fall
life-loss response runs when the (already integrated and possibly reset)
ball is past the bottom edge and the frame-start ballAttached flag is
false. -/
def ballFallStep (attached0 : Bool) (s : GState) : GState :=
  if GAME_HEIGHT < s.ball.y ∧ attached0 = false then lifeLossBallFall s else s

/-- Default invader, the value of the out-of-bounds access that the source
never performs (Math.floor(Math.random() * len) is always within bounds). -/
def defaultInvader : Invader :=
  { x := 0, y := 0, width := 0, height := 0, color := 0, destroyed := false,
    row := 0, col := 0, size := InvSize.large, spawning := false, spawnRotation := 0,
    spawnScale := 0, hasTarget := false, targetX := 0, targetY := 0 }

/-- Laser fired by an invader (the newLaser literal of gameLoop): 4 wide,
12 tall, speed 3, horizontally centred beneath the invader. -/
def mkLaser (i : Invader) : Laser :=
  { x := i.x + i.width / 2 - 2, y := i.y + i.height, width := 4, height := 12, speed := 3 }

/-- The invader selected by the random index into the active list
(activeInvaders[Math.floor(Math.random() * activeInvaders.length)]). -/
def chosenInvader (invs : List Invader) (choice : ℕ) : Invader :=
  (invs.filter isActive).getD choice defaultInvader

/-- Laser spawn check of one frame (the `if (newCount % 30 === 0 && ...)`
block inside the frame counter updater of gameLoop, reached only when
newCount < 180 because the movement branch returns first): a laser is
created only when the laser list is empty, on the 30-frame cadence, when
some active invader exists and the random draw fires (fire stands for
Math.random() < 0.05); the new list then holds exactly the one laser
beneath the chosen invader. -/
def frameLaserSpawn (n : ℕ) (ls : List Laser) (invs : List Invader)
    (fire : Bool) (choice : ℕ) : List Laser :=
  if n < 180 ∧ n % 30 = 0 ∧ ls = [] then
    if invs.filter isActive ≠ [] ∧ fire = true then [mkLaser (chosenInvader invs choice)]
    else ls
  else ls

/-- Laser physics of one frame (lasersRef.current.map followed by filter):
every laser moves down by its speed and lasers past the bottom edge are
removed. -/
def moveLasers (ls : List Laser) : List Laser :=
  (ls.map (fun z => { z with y := z.y + z.speed })).filter (fun z => decide (z.y ≤ GAME_HEIGHT))

/-- Life-event segment of one frame in source order: laser-paddle
resolution, then the invader-paddle and invader-at-bottom loop over the
active invaders captured at the start of the segment, then ball attachment
or integration, the wall bounce, the circular-paddle bounce, the
ball-invader resolution and finally the ball-below-bottom check.  attached0
is the frame-start ballAttached value used by every guard of the frame; d
and sp are the square roots consumed by the paddle bounce and c0 c1 r0 r1
the random colours and rotations of a potential split. -/
def frameLifeEvents (attached0 : Bool) (d sp : ℚ) (c0 c1 : ℕ) (r0 r1 : ℚ)
    (s : GState) : GState :=
  ballFallStep attached0
    (ballInvaderBlockStep c0 c1 r0 r1
      (ballPaddleBounceStep attached0 d sp
        (wallBounceStep
          (ballMoveStep attached0
            (invaderPaddleScan (s.invaders.filter isActive)
              (laserPaddleStep s))))))

/-- Paddle used by the concrete frame scenarios: centre (400, 576), the
lowest position the pointer clamp allows. -/
def cPaddle : Paddle := { x := 384, y := 560, width := 32, height := 32 }

/-- Invader touching the paddle cPaddle and with its lower edge exactly at
the bottom of the playfield. -/
def invBoth : Invader :=
  { x := 400, y := 576, width := 32, height := 24, color := 0, destroyed := false,
    row := 2, col := 0, size := InvSize.small, spawning := false, spawnRotation := 0,
    spawnScale := 1, hasTarget := false, targetX := 0, targetY := 0 }

/-- Invader far from cPaddle whose lower edge is below the bottom of the
playfield. -/
def invBottom : Invader :=
  { x := 0, y := 590, width := 32, height := 24, color := 0, destroyed := false,
    row := 2, col := 1, size := InvSize.small, spawning := false, spawnRotation := 0,
    spawnScale := 1, hasTarget := false, targetX := 0, targetY := 0 }

/-- Laser overlapping cPaddle. -/
def cLaser : Laser := { x := 398, y := 570, width := 4, height := 12, speed := 3 }

/-- State for the C6 counterexample: three lives, playing, one active
invader that both touches the paddle and sits at the bottom edge. -/
def s6 : GState :=
  { gameState := GameState.playing, lives := 3, ballAttached := false, warpActive := false,
    ball := { x := 200, y := 200, dx := 2.5, dy := -2.5, radius := 8 },
    paddle := cPaddle, lasers := [], invaders := [invBoth] }

/-- State for the C4 counterexample and witness: two lives, a laser in
flight, detached ball below the bottom edge. -/
def s4 : GState :=
  { gameState := GameState.playing, lives := 2, ballAttached := false, warpActive := false,
    ball := { x := 410, y := 650, dx := 2.5, dy := 2.5, radius := 8 },
    paddle := cPaddle, lasers := [cLaser], invaders := [] }

/-- State for the C10 scenario: one life, playing, a laser on the paddle,
an active invader on the paddle, and the detached ball already past the
bottom edge; the frame loses three lives and ends at lives = -2. -/
def s10 : GState :=
  { gameState := GameState.playing, lives := 1, ballAttached := false, warpActive := false,
    ball := { x := 410, y := 650, dx := 2.5, dy := 2.5, radius := 8 },
    paddle := cPaddle, lasers := [cLaser], invaders := [invBoth] }

/-- Helper: mapping moveInv over a list relates every active invader to a
copy moved down by dy. -/
theorem forall2_map_move (dx dy : ℚ) (l : List Invader) :
    List.Forall₂ (fun i j => isActive i = true → j.y = i.y + dy) l (l.map (moveInv dx dy)) := by
  induction l with
  | nil => exact List.Forall₂.nil
  | cons a t ih =>
    refine List.Forall₂.cons ?_ ih
    intro ha
    simp [moveInv, ha]

/-- Helper: a formation advance never decreases the step speed. -/
theorem advanceFormation_speed_le (invs : List Invader) (dir : ℤ) (speed : ℚ) :
    speed ≤ (advanceFormation invs dir speed).2.2 := by
  unfold advanceFormation
  split_ifs <;> simp

/-- C2: on a formation advance with at least one active invader, the
direction flips exactly when the active extent plus the current step size
would cross the corresponding boundary margin while moving toward it; every
flip sets the speed to exactly speed + 5 and moves every active invader
down by INVADER_DROP_SPEED = 16; and the step speed never decreases. -/
theorem C2_formation_advance (invs : List Invader) (dir : ℤ) (speed : ℚ)
    (hact : invs.filter isActive ≠ []) :
    (((advanceFormation invs dir speed).2.1 ≠ dir) ↔
      ((dir = 1 ∧ GAME_WIDTH - 30 ≤ rightMostOf (invs.filter isActive) + speed) ∨
       (dir = -1 ∧ leftMostOf (invs.filter isActive) - speed ≤ 30)))
    ∧ ((advanceFormation invs dir speed).2.1 ≠ dir →
        (advanceFormation invs dir speed).2.2 = speed + 5 ∧
        List.Forall₂ (fun i j => isActive i = true → j.y = i.y + INVADER_DROP_SPEED)
          invs (advanceFormation invs dir speed).1)
    ∧ speed ≤ (advanceFormation invs dir speed).2.2 := by
  refine ⟨?_, ?_, advanceFormation_speed_le invs dir speed⟩
  · unfold advanceFormation
    split_ifs with h0 h1 h2
    · exact absurd (List.isEmpty_iff.mp h0) hact
    · dsimp only
      constructor
      · intro _
        exact Or.inl h1
      · intro _
        rw [h1.1]
        decide
    · dsimp only
      constructor
      · intro _
        exact Or.inr h2
      · intro _
        rw [h2.1]
        decide
    · dsimp only
      constructor
      · intro hne
        exact absurd rfl hne
      · rintro (hg | hg)
        · exact absurd hg h1
        · exact absurd hg h2
  · unfold advanceFormation
    split_ifs with h0 h1 h2
    · exact absurd (List.isEmpty_iff.mp h0) hact
    · intro _
      exact ⟨rfl, forall2_map_move _ _ invs⟩
    · intro _
      exact ⟨rfl, forall2_map_move _ _ invs⟩
    · intro hne
      exact absurd rfl hne

/-- C2 witness: a single active large invader at the right margin; the
advance exists and does not decrease the speed. -/
theorem C2_formation_advance_witness :
    ([inv1].filter isActive ≠ []) ∧ (15 : ℚ) ≤ (advanceFormation [inv1] 1 15).2.2 :=
  ⟨by decide, (C2_formation_advance [inv1] 1 15 (by decide)).2.2⟩

/-- Helper: effect of the ball-invader resolution when the first colliding
invader is found; a large or medium first hit grows the list by exactly one
(parent removed, two children appended), a small first hit preserves the
length and reports speed increment 1. -/
theorem ballInvaderScan_first_hit (b : Ball) (c0 c1 : ℕ) (r0 r1 : ℚ) :
    ∀ (invs : List Invader) (j : Invader),
      invs.find? (fun k => checkBallInvaderCollision b k) = some j →
      ((j.size = InvSize.large ∨ j.size = InvSize.medium) →
        (ballInvaderScan b c0 c1 r0 r1 invs).1.length = invs.length + 1)
      ∧ (j.size = InvSize.small →
        (ballInvaderScan b c0 c1 r0 r1 invs).1.length = invs.length
        ∧ (ballInvaderScan b c0 c1 r0 r1 invs).2.2.1 = 1) := by
  intro invs
  induction invs with
  | nil =>
    intro j h
    simp at h
  | cons a t ih =>
    intro j h
    by_cases hc : checkBallInvaderCollision b a = true
    · rw [List.find?_cons_of_pos _ hc] at h
      have haj : a = j := Option.some.inj h
      subst haj
      constructor
      · intro hsz
        rcases hsz with h1 | h1 <;>
          simp [ballInvaderScan, hc, h1, splitChildren]
      · intro hsz
        simp [ballInvaderScan, hc, hsz]
    · rw [List.find?_cons_of_neg _ hc] at h
      obtain ⟨ih1, ih2⟩ := ih j h
      constructor
      · intro hsz
        simp only [ballInvaderScan, hc, if_false, Bool.false_eq_true, List.length_cons]
        rw [ih1 hsz]
      · intro hsz
        obtain ⟨hl, hd⟩ := ih2 hsz
        constructor
        · simp only [ballInvaderScan, hc, if_false, Bool.false_eq_true, List.length_cons]
          rw [hl]
        · simp only [ballInvaderScan, hc, if_false, Bool.false_eq_true]
          exact hd

/-- Helper: the speed increment reported by the ball-invader resolution is
never negative. -/
theorem ballInvaderScan_delta_nonneg (b : Ball) (c0 c1 : ℕ) (r0 r1 : ℚ) :
    ∀ invs : List Invader, 0 ≤ (ballInvaderScan b c0 c1 r0 r1 invs).2.2.1 := by
  intro invs
  induction invs with
  | nil => simp [ballInvaderScan]
  | cons a t ih =>
    by_cases hc : checkBallInvaderCollision b a = true
    · cases hsz : a.size <;> simp [ballInvaderScan, hc, hsz]
    · simpa [ballInvaderScan, hc] using ih

/-- Helper: the brick-breaker resolution never changes the number of bricks
(a hit only sets the destroyed flag of the first overlapping brick). -/
theorem ballBrickScan_length (b : Ball) :
    ∀ bricks : List Brick, ((ballBrickScan b bricks).1).length = bricks.length := by
  intro bricks
  induction bricks with
  | nil => simp [ballBrickScan]
  | cons a t ih =>
    by_cases hc : checkBallBrickCollision b a = true
    · simp [ballBrickScan, hc]
    · simp only [ballBrickScan, hc, if_false, Bool.false_eq_true, List.length_cons]
      rw [ih]

/-- C3: a large invader splits into exactly two medium children and a
medium invader into exactly two small children, each child starting as
spawning with spawn scale 0.1; a small invader yields no children; whenever
the spawn animation of a spawning invader settles (the spawning flag is
cleared by the per-frame update) the scale is set to exactly 1; resolving a
ball hit on a large or medium invader replaces the parent by the two
children (list grows by exactly one); and destroying a brick in the
brick-breaker variant never creates anything. -/
theorem C3_split_children :
    (∀ (inv : Invader) (c0 c1 : ℕ) (r0 r1 : ℚ), inv.size = InvSize.large →
      (splitChildren inv c0 c1 r0 r1).length = 2 ∧
      ∀ c ∈ splitChildren inv c0 c1 r0 r1,
        c.size = InvSize.medium ∧ c.spawning = true ∧ c.spawnScale = 0.1)
    ∧ (∀ (inv : Invader) (c0 c1 : ℕ) (r0 r1 : ℚ), inv.size = InvSize.medium →
      (splitChildren inv c0 c1 r0 r1).length = 2 ∧
      ∀ c ∈ splitChildren inv c0 c1 r0 r1,
        c.size = InvSize.small ∧ c.spawning = true ∧ c.spawnScale = 0.1)
    ∧ (∀ (inv : Invader) (c0 c1 : ℕ) (r0 r1 : ℚ), inv.size = InvSize.small →
      splitChildren inv c0 c1 r0 r1 = [])
    ∧ (∀ i : Invader, i.spawning = true → (updateSpawning i).spawning = false →
      (updateSpawning i).spawnScale = 1)
    ∧ (∀ (b : Ball) (c0 c1 : ℕ) (r0 r1 : ℚ) (invs : List Invader) (j : Invader),
      invs.find? (fun k => checkBallInvaderCollision b k) = some j →
      (j.size = InvSize.large ∨ j.size = InvSize.medium) →
      (ballInvaderScan b c0 c1 r0 r1 invs).1.length = invs.length + 1)
    ∧ (∀ (b : Ball) (bricks : List Brick), ((ballBrickScan b bricks).1).length = bricks.length) := by
  refine ⟨?_, ?_, ?_, ?_, ?_, ?_⟩
  · intro inv c0 c1 r0 r1 h
    refine ⟨by simp [splitChildren, h], ?_⟩
    intro c hc
    simp [splitChildren, h] at hc
    rcases hc with hc | hc <;> subst hc <;> simp [mkChild]
  · intro inv c0 c1 r0 r1 h
    refine ⟨by simp [splitChildren, h], ?_⟩
    intro c hc
    simp [splitChildren, h] at hc
    rcases hc with hc | hc <;> subst hc <;> simp [mkChild]
  · intro inv c0 c1 r0 r1 h
    simp [splitChildren, h]
  · intro i hs hcl
    simp only [updateSpawning, hs] at hcl ⊢
    split_ifs at hcl ⊢ <;> simp_all
  · intro b c0 c1 r0 r1 invs j hf hsz
    exact (ballInvaderScan_first_hit b c0 c1 r0 r1 invs j hf).1 hsz
  · exact ballBrickScan_length

/-- C3 witness: the concrete large invader inv1 splits into exactly two
children. -/
theorem C3_split_children_witness :
    inv1.size = InvSize.large ∧ (splitChildren inv1 0 1 0 0).length = 2 :=
  ⟨rfl, (C3_split_children.1 inv1 0 1 0 0 rfl).1⟩

/-- C8: the formation step speed rises by exactly 1 when the first invader
hit by the ball is small, the ball-hit speed increment is never negative, a
formation advance never decreases the speed, and a restart resets it to 15
— so the step speed is monotonically non-decreasing within a session. -/
theorem C8_speed_monotone :
    (∀ (b : Ball) (c0 c1 : ℕ) (r0 r1 : ℚ) (invs : List Invader) (j : Invader),
      invs.find? (fun k => checkBallInvaderCollision b k) = some j →
      j.size = InvSize.small →
      (ballInvaderScan b c0 c1 r0 r1 invs).2.2.1 = 1)
    ∧ (∀ (b : Ball) (c0 c1 : ℕ) (r0 r1 : ℚ) (invs : List Invader),
      0 ≤ (ballInvaderScan b c0 c1 r0 r1 invs).2.2.1)
    ∧ (∀ (invs : List Invader) (dir : ℤ) (speed : ℚ),
      speed ≤ (advanceFormation invs dir speed).2.2)
    ∧ startInvaderSpeed = 15 := by
  refine ⟨?_, ?_, ?_, rfl⟩
  · intro b c0 c1 r0 r1 invs j hf hsz
    exact ((ballInvaderScan_first_hit b c0 c1 r0 r1 invs j hf).2 hsz).2
  · intro b c0 c1 r0 r1 invs
    exact ballInvaderScan_delta_nonneg b c0 c1 r0 r1 invs
  · intro invs dir speed
    exact advanceFormation_speed_le invs dir speed

/-- C8 witness: the ball destroying the concrete small invader invS raises
the step speed by exactly 1. -/
theorem C8_speed_monotone_witness :
    ([invS].find? (fun k => checkBallInvaderCollision ballS k) = some invS ∧
      invS.size = InvSize.small) ∧
    (ballInvaderScan ballS 0 0 0 0 [invS]).2.2.1 = 1 := by
  have hf : [invS].find? (fun k => checkBallInvaderCollision ballS k) = some invS := by
    norm_num [List.find?, checkBallInvaderCollision, invS, ballS]
  exact ⟨⟨hf, rfl⟩, C8_speed_monotone.1 ballS 0 0 0 0 [invS] invS hf rfl⟩

/-- C1: after any circular-paddle collision response the ball speed is at
most the fixed maximum 8.  Here s is the square root of the squared speed
of the reflected velocity (the value the source computes with Math.sqrt)
and sp is the square root of the squared speed of the final velocity; the
claim is sp <= 8. -/
theorem C1_paddle_bounce_speed_clamped (dx dy nx ny s sp : ℚ)
    (hs : 0 ≤ s)
    (hs2 : s ^ 2 = (bounceReflect dx dy nx ny).1 ^ 2 + (bounceReflect dx dy nx ny).2 ^ 2)
    (hsp : 0 ≤ sp)
    (hsp2 : sp ^ 2 = (paddleBounceVel dx dy nx ny s).1 ^ 2 + (paddleBounceVel dx dy nx ny s).2 ^ 2) :
    sp ≤ 8 := by
  unfold paddleBounceVel clampSpeed at hsp2
  by_cases h : 8 < s
  · rw [if_pos h] at hsp2
    have hs0 : s ≠ 0 := ne_of_gt (by linarith)
    have e1 : ((bounceReflect dx dy nx ny).1 / s * 8) ^ 2 +
        ((bounceReflect dx dy nx ny).2 / s * 8) ^ 2 =
        64 * ((bounceReflect dx dy nx ny).1 ^ 2 + (bounceReflect dx dy nx ny).2 ^ 2) / s ^ 2 := by
      field_simp
      ring
    rw [e1, ← hs2] at hsp2
    have h64 : sp ^ 2 = 64 := by
      rw [hsp2]
      field_simp
    nlinarith [h64, hsp, sq_nonneg (sp - 8)]
  · rw [if_neg h] at hsp2
    push_neg at h
    nlinarith [hsp2, hs2, hsp, hs, h, sq_nonneg (sp - 8),
      mul_nonneg (show (0:ℚ) ≤ 8 - s by linarith) (show (0:ℚ) ≤ 8 + s by linarith)]

/-- C1 witness: a concrete bounce with reflected velocity (6, -8), speed 10,
clamped to speed 8. -/
theorem C1_paddle_bounce_speed_clamped_witness :
    ((0:ℚ) ≤ 10 ∧ (0:ℚ) ≤ 8) ∧ (8 : ℚ) ≤ 8 := by
  refine ⟨⟨by norm_num, by norm_num⟩, ?_⟩
  exact C1_paddle_bounce_speed_clamped 6 8 0 (-1) 10 8 (by norm_num)
    (by norm_num [bounceReflect]) (by norm_num)
    (by norm_num [paddleBounceVel, bounceReflect, clampSpeed])

/-- C7 counterexample: a ball moving horizontally (dx, dy) = (1, 0) that
hits the side of the circular paddle (normal (1, 0)) leaves the bounce with
vertical velocity exactly 0, not strictly negative. -/
theorem C7_counterexample :
    (paddleBounceVel 1 0 1 0 1).2 = 0 ∧ ¬ (paddleBounceVel 1 0 1 0 1).2 < 0 := by
  constructor
  · norm_num [paddleBounceVel, bounceReflect, clampSpeed]
  · norm_num [paddleBounceVel, bounceReflect, clampSpeed]

/-- C7 amended: after a circular-paddle bounce the vertical velocity is
never positive (never downward in screen coordinates), and it is strictly
negative whenever the reflected-and-forced-upward vertical component is
nonzero; the unmodified claim of strict negativity for all inputs fails
(see the counterexample). -/
theorem C7_bounce_upward_amended (dx dy nx ny s : ℚ) :
    (paddleBounceVel dx dy nx ny s).2 ≤ 0 ∧
    ((bounceReflect dx dy nx ny).2 ≠ 0 → (paddleBounceVel dx dy nx ny s).2 < 0) := by
  have h0 : (bounceReflect dx dy nx ny).2 ≤ 0 := by
    simp only [bounceReflect]
    exact neg_nonpos.mpr (abs_nonneg _)
  unfold paddleBounceVel clampSpeed
  by_cases h : 8 < s
  · rw [if_pos h]
    have hspos : 0 < s := by linarith
    have hdiv : (bounceReflect dx dy nx ny).2 / s ≤ 0 := by
      rw [div_nonpos_iff]
      right
      exact ⟨h0, hspos.le⟩
    constructor
    · simp only
      linarith [hdiv]
    · intro hne
      have hlt : (bounceReflect dx dy nx ny).2 < 0 := lt_of_le_of_ne h0 hne
      have : (bounceReflect dx dy nx ny).2 / s < 0 := div_neg_of_neg_of_pos hlt hspos
      simp only
      linarith [this]
  · rw [if_neg h]
    exact ⟨h0, fun hne => lt_of_le_of_ne h0 hne⟩

/-- C7 amended witness: a concrete bounce with nonzero reflected vertical
component leaves the paddle moving strictly upward. -/
theorem C7_bounce_upward_amended_witness :
    (bounceReflect 0 5 0 (-1)).2 ≠ 0 ∧ (paddleBounceVel 0 5 0 (-1) 5).2 < 0 := by
  refine ⟨by norm_num [bounceReflect], ?_⟩
  exact (C7_bounce_upward_amended 0 5 0 (-1) 5).2 (by norm_num [bounceReflect])

/-- C9 counterexample: the collision predicate accepts the state in which
the ball centre coincides exactly with the paddle centre, where the squared
length of the would-be collision normal is 0, so the normalisation in
gameLoop divides by zero; the coincident case is neither excluded nor
handled. -/
theorem C9_counterexample :
    checkBallPaddleCollision c9ball c9paddle = true ∧
    (c9ball.x - (c9paddle.x + c9paddle.width / 2)) ^ 2 +
      (c9ball.y - (c9paddle.y + c9paddle.height / 2)) ^ 2 = 0 := by
  constructor
  · norm_num [checkBallPaddleCollision, c9ball, c9paddle]
  · norm_num [c9ball, c9paddle]

/-- C9 amended: for every colliding ball and paddle state whose ball centre
differs from the paddle centre, the squared length of the
ball-centre-minus-paddle-centre vector is strictly positive, so the
collision normal is well-defined; the collision predicate itself does not
exclude the coincident-centre case (see the counterexample). -/
theorem C9_normal_nonzero_amended (b : Ball) (p : Paddle)
    (hc : checkBallPaddleCollision b p = true)
    (hne : b.x ≠ p.x + p.width / 2 ∨ b.y ≠ p.y + p.height / 2) :
    0 < (b.x - (p.x + p.width / 2)) ^ 2 + (b.y - (p.y + p.height / 2)) ^ 2 := by
  have habs : ∀ a : ℚ, a ≠ 0 → 0 < a ^ 2 := by
    intro a ha
    have h1 : 0 < |a| := abs_pos.mpr ha
    calc (0:ℚ) < |a| ^ 2 := by positivity
      _ = a ^ 2 := sq_abs a
  rcases hne with hx | hy
  · have h1 : 0 < (b.x - (p.x + p.width / 2)) ^ 2 := habs _ (sub_ne_zero.mpr hx)
    nlinarith [sq_nonneg (b.y - (p.y + p.height / 2))]
  · have h1 : 0 < (b.y - (p.y + p.height / 2)) ^ 2 := habs _ (sub_ne_zero.mpr hy)
    nlinarith [sq_nonneg (b.x - (p.x + p.width / 2))]

/-- C9 amended witness: a concrete colliding state with distinct centres has
a nonzero normal vector. -/
theorem C9_normal_nonzero_amended_witness :
    (checkBallPaddleCollision c9ballW c9paddle = true ∧ c9ballW.x ≠ c9paddle.x + c9paddle.width / 2) ∧
    0 < (c9ballW.x - (c9paddle.x + c9paddle.width / 2)) ^ 2 +
      (c9ballW.y - (c9paddle.y + c9paddle.height / 2)) ^ 2 := by
  refine ⟨⟨by norm_num [checkBallPaddleCollision, c9ballW, c9paddle],
    by norm_num [c9ballW, c9paddle]⟩, ?_⟩
  exact C9_normal_nonzero_amended c9ballW c9paddle
    (by norm_num [checkBallPaddleCollision, c9ballW, c9paddle])
    (Or.inl (by norm_num [c9ballW, c9paddle]))

/-- Helper: the reversed-order laser-paddle search removes exactly one
element when it finds a hit. -/
theorem laserScanRev_some_length (p : Paddle) :
    ∀ (ls : List Laser) (r : List Laser), laserScanRev ls p = some r → r.length + 1 = ls.length := by
  intro ls
  induction ls with
  | nil =>
    intro r h
    exact Option.noConfusion h
  | cons a t ih =>
    intro r h
    by_cases hc : checkLaserPaddleCollision a p = true
    · simp only [laserScanRev, hc, if_true] at h
      have : t = r := Option.some.inj h
      subst this
      simp
    · simp only [laserScanRev, hc, if_false, Bool.false_eq_true] at h
      cases ht : laserScanRev t p with
      | none =>
        rw [ht] at h
        simp at h
      | some r2 =>
        rw [ht] at h
        rw [Option.map_some'] at h
        have : a :: r2 = r := Option.some.inj h
        subst this
        have := ih r2 ht
        simp only [List.length_cons]
        omega

/-- Helper: when the reversed-order search finds a hit, the laser-paddle
resolution strictly shrinks the laser list (removal, then either a clear or
no further change). -/
theorem laserPaddleStep_length_lt (s : GState) (r : List Laser)
    (h : laserScanRev s.lasers.reverse s.paddle = some r) :
    (laserPaddleStep s).lasers.length < s.lasers.length := by
  have hl : r.length + 1 = s.lasers.reverse.length := laserScanRev_some_length _ _ r h
  rw [List.length_reverse] at hl
  have hstep : laserPaddleStep s = lifeLossLaser { s with lasers := r.reverse } := by
    unfold laserPaddleStep
    rw [h]
  rw [hstep]
  unfold lifeLossLaser
  split_ifs <;> simp <;> omega

/-- C4 counterexample: in a state with two lives, a detached ball below the
bottom edge and a laser in flight, the ball-fall life-loss response leaves
the laser list untouched although lives remain, contradicting the claim
that every invocation of the life-loss path clears any in-flight laser. -/
theorem C4_counterexample :
    (lifeLossBallFall s4).lives = 1 ∧ 0 < (lifeLossBallFall s4).lives ∧
    (lifeLossBallFall s4).lasers = [cLaser] ∧ (lifeLossBallFall s4).lasers ≠ [] := by
  refine ⟨?_, ?_, ?_, ?_⟩ <;>
    norm_num [lifeLossBallFall, s4, resetBallOnPaddle, cPaddle]

/-- C4 amended: every invocation of the life-loss path decrements lives by
one; when lives reach zero or below the state becomes gameOver; otherwise
the ball is re-attached and the warp-in cosmetic triggered, and the
in-flight laser is cleared by the laser-hit and invader-collision paths but
left untouched by the ball-fall path. -/
theorem C4_life_loss_amended (s : GState) :
    ((lifeLossLaser s).lives = s.lives - 1 ∧
     (lifeLossInvader s).lives = s.lives - 1 ∧
     (lifeLossBallFall s).lives = s.lives - 1)
    ∧ (s.lives - 1 ≤ 0 →
        (lifeLossLaser s).gameState = GameState.gameOver ∧
        (lifeLossInvader s).gameState = GameState.gameOver ∧
        (lifeLossBallFall s).gameState = GameState.gameOver)
    ∧ (0 < s.lives - 1 →
        (lifeLossLaser s).ballAttached = true ∧ (lifeLossLaser s).warpActive = true ∧
        (lifeLossLaser s).lasers = [] ∧
        (lifeLossInvader s).ballAttached = true ∧ (lifeLossInvader s).warpActive = true ∧
        (lifeLossInvader s).lasers = [] ∧
        (lifeLossBallFall s).ballAttached = true ∧ (lifeLossBallFall s).warpActive = true ∧
        (lifeLossBallFall s).lasers = s.lasers) := by
  refine ⟨⟨?_, ?_, ?_⟩, ?_, ?_⟩
  · unfold lifeLossLaser
    split_ifs <;> rfl
  · unfold lifeLossInvader
    split_ifs <;> rfl
  · unfold lifeLossBallFall
    split_ifs <;> rfl
  · intro h
    unfold lifeLossLaser lifeLossInvader lifeLossBallFall
    split_ifs
    exact ⟨rfl, rfl, rfl⟩
  · intro h
    unfold lifeLossLaser lifeLossInvader lifeLossBallFall
    split_ifs with hh
    · exact absurd hh (not_le.mpr h)
    · exact ⟨rfl, rfl, rfl, rfl, rfl, rfl, rfl, rfl, rfl⟩

/-- C4 amended witness: with two lives the ball-fall response keeps the
laser list. -/
theorem C4_life_loss_amended_witness :
    (0 < s4.lives - 1) ∧ (lifeLossBallFall s4).lasers = s4.lasers := by
  have h : (0:ℤ) < s4.lives - 1 := by norm_num [s4]
  exact ⟨h, ((C4_life_loss_amended s4).2.2 h).2.2.2.2.2.2.2.2⟩

/-- C5: the laser-spawn check creates a laser only when the list is empty
(and then exactly one, on the 30-frame cadence below the 180-frame movement
threshold, beneath the chosen active invader); the laser physics removes
lasers past the bottom edge and never grows the list; the laser-paddle
resolution never grows the list and strictly shrinks it on a hit — so at
most one laser ever exists. -/
theorem C5_laser_invariant :
    (∀ (n : ℕ) (ls : List Laser) (invs : List Invader) (fire : Bool) (choice : ℕ),
      ls.length ≤ 1 → (frameLaserSpawn n ls invs fire choice).length ≤ 1)
    ∧ (∀ (n : ℕ) (ls : List Laser) (invs : List Invader) (fire : Bool) (choice : ℕ),
      ls ≠ [] → frameLaserSpawn n ls invs fire choice = ls)
    ∧ (∀ ls : List Laser, (moveLasers ls).length ≤ ls.length)
    ∧ (∀ ls : List Laser, ∀ z ∈ moveLasers ls, z.y ≤ GAME_HEIGHT)
    ∧ (∀ s : GState, (laserPaddleStep s).lasers.length ≤ s.lasers.length)
    ∧ (∀ (s : GState) (r : List Laser), laserScanRev s.lasers.reverse s.paddle = some r →
        (laserPaddleStep s).lasers.length < s.lasers.length)
    ∧ (∀ i : Invader, (mkLaser i).x + (mkLaser i).width / 2 = i.x + i.width / 2 ∧
        (mkLaser i).y = i.y + i.height)
    ∧ (∀ (n : ℕ) (ls : List Laser) (invs : List Invader) (fire : Bool) (choice : ℕ),
        n < 180 → n % 30 = 0 → ls = [] → invs.filter isActive ≠ [] → fire = true →
        frameLaserSpawn n ls invs fire choice = [mkLaser (chosenInvader invs choice)])
    ∧ (∀ (invs : List Invader) (choice : ℕ), choice < (invs.filter isActive).length →
        isActive (chosenInvader invs choice) = true) := by
  refine ⟨?_, ?_, ?_, ?_, ?_, ?_, ?_, ?_, ?_⟩
  · intro n ls invs fire choice hlen
    unfold frameLaserSpawn
    split_ifs <;> simp_all
  · intro n ls invs fire choice hls
    unfold frameLaserSpawn
    rw [if_neg (fun h => hls h.2.2)]
  · intro ls
    unfold moveLasers
    exact le_trans (List.length_filter_le _ _) (le_of_eq (List.length_map _ _))
  · intro ls z hz
    unfold moveLasers at hz
    rw [List.mem_filter] at hz
    exact of_decide_eq_true hz.2
  · intro s
    cases h : laserScanRev s.lasers.reverse s.paddle with
    | none => simp [laserPaddleStep, h]
    | some r => exact le_of_lt (laserPaddleStep_length_lt s r h)
  · intro s r h
    exact laserPaddleStep_length_lt s r h
  · intro i
    constructor
    · unfold mkLaser
      dsimp only
      ring
    · rfl
  · intro n ls invs fire choice hn hm hls hact hf
    unfold frameLaserSpawn
    rw [if_pos ⟨hn, hm, hls⟩, if_pos ⟨hact, hf⟩]
  · intro invs choice hlt
    have hmem : chosenInvader invs choice ∈ invs.filter isActive := by
      unfold chosenInvader
      rw [List.getD_eq_getElem _ _ hlt]
      exact List.getElem_mem hlt
    exact (List.mem_filter.mp hmem).2

/-- C5 witness: at frame 30 with no laser on screen and the active invader
inv1, the spawn check creates exactly the one laser beneath inv1. -/
theorem C5_laser_invariant_witness :
    ([inv1].filter isActive ≠ []) ∧
    frameLaserSpawn 30 [] [inv1] true 0 = [mkLaser (chosenInvader [inv1] 0)] := by
  refine ⟨by decide, ?_⟩
  exact C5_laser_invariant.2.2.2.2.2.2.2.1 30 [] [inv1] true 0
    (by norm_num) (by norm_num) rfl (by decide) rfl

/-- C6 counterexample: a state in which an active invader sits with its
lower edge at the bottom of the playfield but also touches the paddle; the
paddle collision resolves first and breaks the loop, so the frame ends
still playing (lives were 3), not in gameOver, although an invader reached
the bottom. -/
theorem C6_counterexample :
    (∃ i ∈ List.filter isActive s6.invaders, GAME_HEIGHT ≤ i.y + i.height) ∧
    (invaderPaddleScan (List.filter isActive s6.invaders) s6).gameState ≠ GameState.gameOver := by
  constructor
  · refine ⟨invBoth, ?_, ?_⟩
    · simp [s6, isActive, invBoth]
    · norm_num [invBoth, GAME_HEIGHT]
  · norm_num [invaderPaddleScan, s6, isActive, invBoth, checkInvaderPaddleCollision,
      cPaddle, lifeLossInvader, resetBallOnPaddle, GAME_HEIGHT]
    decide

/-- C6 amended: when no scanned active invader collides with the paddle and
some scanned active invader has its lower edge at or below the bottom of
the playfield, the step transitions to gameOver regardless of remaining
lives; an earlier paddle collision preempts the bottom check for that frame
(see the counterexample), and only living, non-spawning invaders are
scanned. -/
theorem C6_invader_bottom_amended (l : List Invader) (s : GState)
    (hnc : ∀ i ∈ l, checkInvaderPaddleCollision i s.paddle = false)
    (hb : ∃ i ∈ l, GAME_HEIGHT ≤ i.y + i.height) :
    (invaderPaddleScan l s).gameState = GameState.gameOver := by
  induction l with
  | nil => simp at hb
  | cons a t ih =>
    have ha := hnc a (List.mem_cons_self a t)
    simp only [invaderPaddleScan, ha, Bool.false_eq_true, if_false]
    by_cases hbt : GAME_HEIGHT ≤ a.y + a.height
    · rw [if_pos hbt]
    · rw [if_neg hbt]
      obtain ⟨j, hj, hjb⟩ := hb
      rcases List.mem_cons.mp hj with hj | hj
      · subst hj
        exact absurd hjb hbt
      · exact ih (fun i hi => hnc i (List.mem_cons_of_mem a hi)) ⟨j, hj, hjb⟩

/-- C6 amended witness: an active invader below the bottom and away from
the paddle forces gameOver. -/
theorem C6_invader_bottom_amended_witness :
    (∀ i ∈ [invBottom], checkInvaderPaddleCollision i s6.paddle = false) ∧
    (invaderPaddleScan [invBottom] s6).gameState = GameState.gameOver := by
  have hnc : ∀ i ∈ [invBottom], checkInvaderPaddleCollision i s6.paddle = false := by
    intro i hi
    rw [List.mem_singleton] at hi
    subst hi
    norm_num [checkInvaderPaddleCollision, invBottom, s6, cPaddle]
  refine ⟨hnc, ?_⟩
  exact C6_invader_bottom_amended [invBottom] s6 hnc
    ⟨invBottom, by simp, by norm_num [invBottom, GAME_HEIGHT]⟩

/-- C10: each of the three life-loss responses decrements lives by exactly
one, and in the concrete frame scenario s10 (one life, a laser on the
paddle, an active invader on the paddle, ball past the bottom edge) the
laser hit, the invader collision and the ball fall all trigger in the same
frame: lives go from 1 to -2, so a single frame can decrement lives more
than once and push them below zero. -/
theorem C10_multi_decrement :
    (∀ s : GState, (lifeLossLaser s).lives = s.lives - 1) ∧
    (∀ s : GState, (lifeLossInvader s).lives = s.lives - 1) ∧
    (∀ s : GState, (lifeLossBallFall s).lives = s.lives - 1) ∧
    s10.lives = 1 ∧
    (frameLifeEvents false 1 1 0 0 0 0 s10).lives = -2 := by
  refine ⟨?_, ?_, ?_, rfl, ?_⟩
  · intro s
    unfold lifeLossLaser
    split_ifs <;> rfl
  · intro s
    unfold lifeLossInvader
    split_ifs <;> rfl
  · intro s
    unfold lifeLossBallFall
    split_ifs <;> rfl
  · norm_num [frameLifeEvents, s10, cPaddle, cLaser, invBoth, laserPaddleStep,
      laserScanRev, checkLaserPaddleCollision, lifeLossLaser, resetBallOnPaddle,
      invaderPaddleScan, isActive, checkInvaderPaddleCollision, lifeLossInvader,
      ballMoveStep, wallBounceStep, ballPaddleBounceStep, checkBallPaddleCollision,
      ballInvaderBlockStep, ballInvaderScan, checkBallInvaderCollision,
      ballFallStep, lifeLossBallFall, GAME_WIDTH, GAME_HEIGHT]
